import Mathlib

/-!
Shallow embedding of the core of `nrsc5-dui.py` (markjfine/nrsc5-dui):
the line-driven station model (`parseFeedback`, `initStreamInfo`,
`checkPorts`, the two type-code lookup tables) and the map subsystem
(`finishTrafficMap`, `checkTiles`, `processWeatherOverlay`,
`finishWeatherOverlay`, `proccessWeatherMaps`, `proccessWeatherInfo`,
`makeBaseMap`).

Conventions used throughout:
* Python line input is modelled at the level of the regex groups the source
  extracts (the regular expressions in `self.regex` and the local patterns):
  each handler receives exactly the fields the corresponding Python branch
  reads from its match object.
* Python floats only ever flow through the claims as opaque values compared
  for equality, so they are modelled as `Rat`.
* Python `None` is modelled as `Option.none`; a Python variable that can
  hold either a string or `None` has type `Option String` (`self.lastType`
  is initialised to the integer `0`, which compares unequal to every
  string; that sentinel is modelled as `none`).
* File-system operations are modelled by outcome parameters (`moveOk`,
  `stitchOk`, `compOk`, `delOk`, existence flags) plus effect fields in the
  result structures; an uncaught Python exception is modelled by a
  `raised := true` field (state mutations made before the raise are kept,
  as they are in Python).
* Python `lst[i] = v` is modelled with `List.set`; the claims below only
  exercise in-range indices, where the two agree.
-/

namespace Nrsc5Dui

/-- Value of one hexadecimal digit, as used by Python `int(s, 16)`.
The strings this is applied to are regex groups matching `[0-9]+`,
so every character is a valid (decimal, hence hexadecimal) digit. -/
def hexDigitVal (c : Char) : Nat :=
  if ('0' ≤ c ∧ c ≤ '9') then c.toNat - 48
  else if ('a' ≤ c ∧ c ≤ 'f') then c.toNat - 87
  else if ('A' ≤ c ∧ c ≤ 'F') then c.toNat - 55
  else 0

/-- Python `int(s, 16)` on the digit strings delivered by the regexes
(`port=([0-9]+)` groups are parsed base 16 by the source). -/
def hexVal (s : String) : Nat :=
  s.data.foldl (fun a c => 16 * a + hexDigitVal c) 0

/-- The `self.ServiceDataType` dictionary, in source order. -/
def ServiceDataType : List (Nat × String) :=
  [(0, "Non_Specific"), (1, "News"), (3, "Sports"), (29, "Weather"),
   (31, "Emergency"), (65, "Traffic"), (66, "Image Maps"), (80, "Text"),
   (256, "Advertising"), (257, "Financial"), (258, "Stock Ticker"),
   (259, "Navigation"), (260, "Electronic Program Guide"), (261, "Audio"),
   (262, "Private Data Network"), (263, "Service Maintenance"),
   (264, "HD Radio System Services"), (265, "Audio-Related Objects"),
   (511, "Reserved for Special Tests")]

/-- The `self.ProgramType` dictionary, in source order. -/
def ProgramType : List (Nat × String) :=
  [(0, "None"), (1, "News"), (2, "Information"), (3, "Sports"), (4, "Talk"),
   (5, "Rock"), (6, "Classic Rock"), (7, "Adult Hits"), (8, "Soft Rock"),
   (9, "Top 40"), (10, "Country"), (11, "Oldies"), (12, "Soft"),
   (13, "Nostalgia"), (14, "Jazz"), (15, "Classical"),
   (16, "Rhythm and Blues"), (17, "Soft Rhythm and Blues"),
   (18, "Foreign Language"), (19, "Religious Music"), (20, "Religious Talk"),
   (21, "Personality"), (22, "Public"), (23, "College"), (24, "Spanish Talk"),
   (25, "Spanish Music"), (26, "Hip-Hop"), (29, "Weather"),
   (30, "Emergency Test"), (31, "Emergency"), (65, "Traffic"),
   (76, "Special Reading Services")]

/-- `service_data_type_name`: scans the dictionary items and returns the
value of the first key equal to `t`; falls off the end (Python `None`,
here `none`) for an unknown code. -/
def service_data_type_name (t : Nat) : Option String :=
  (ServiceDataType.find? (fun kv => kv.1 == t)).map (fun kv => kv.2)

/-- `program_type_name`: same scan over `self.ProgramType`. -/
def program_type_name (t : Nat) : Option String :=
  (ProgramType.find? (fun kv => kv.1 == t)).map (fun kv => kv.2)

/-- The station-side mutable state: the `self.streamInfo` dictionary fields
written by `parseFeedback`, together with the port table `self.streams`
and the counters `self.numStreams`, `self.numServices`, `self.lastType`.
Fields that Python can overwrite with `None` (the `SvcTypes` and
`Programs` entries) have type `Option String`; their initial value is the
empty string, i.e. `some ""`. -/
structure StationState where
  Callsign : String
  Slogan : String
  Message : String
  Alert : String
  Title : String
  Album : String
  Genre : String
  Artist : String
  Cover : String
  Logo : String
  Streams : List String
  Programs : List (Option String)
  Services : List String
  SvcTypes : List (Option String)
  Bitrate : Rat
  MER : List Rat
  BER : List Rat
  Gain : Rat
  streams : List (List Nat)
  numStreams : Nat
  numServices : Nat
  lastType : Option String
deriving DecidableEq, Repr

/-- The fresh station state built by `initStreamInfo` (the dictionary
literal at lines 1890-1909 plus the four assignments at 1911-1914). -/
def initStationState : StationState :=
  { Callsign := "", Slogan := "", Message := "", Alert := "", Title := "",
    Album := "", Genre := "", Artist := "", Cover := "", Logo := "",
    Streams := ["", "", "", "", "", "", "", ""],
    Programs := [some "", some "", some "", some "", some "", some "", some "", some ""],
    Services := ["", "", "", ""],
    SvcTypes := [some "", some "", some "", some ""],
    Bitrate := 0, MER := [0, 0], BER := [0, 0, 0, 0], Gain := 0,
    streams := [[], [], [], [], [], [], [], []],
    numStreams := 0, numServices := 0, lastType := none }

/-- Handler of a `SIG Service: type=.. number=.. name=..` line
(`parseFeedback`, regex 11 branch, lines 1702-1716). -/
def applySigService (st : StationState) (t : String) (s : Nat) (n : String) :
    StationState :=
  let st0 := { st with lastType := some t }
  let st1 :=
    if t = "audio" ∧ 1 ≤ s ∧ s ≤ 8 then
      { st0 with numStreams := s, Streams := st0.Streams.set (s - 1) n }
    else st0
  if t = "data" then
    { st1 with Services := st1.Services.set st1.numServices n,
               numServices := st1.numServices + 1 }
  else st1

/-- Handler of a `Data component: id=.. port=.. service_data_type=..` line
(`parseFeedback`, regex 12 branch, lines 1717-1728).  The port group is
parsed base 16 (`int(m.group(2), 16)`). -/
def applyDataComponent (st : StationState) (id : Nat) (portStr : String)
    (sdt : Nat) : StationState :=
  let p := hexVal portStr
  let st1 :=
    if st.lastType = some "audio" ∧ st.numStreams > 0 then
      let slot := st.numStreams - 1
      { st with streams := st.streams.set slot ((st.streams.getD slot []) ++ [p]) }
    else st
  if st1.lastType = some "data" ∧ id = 0 ∧ st1.numServices > 0 then
    { st1 with SvcTypes := st1.SvcTypes.set (st1.numServices - 1) (service_data_type_name sdt) }
  else st1

/-- Handler of an `Audio component: id=.. port=.. type=..` line
(`parseFeedback`, regex 18 branch, lines 1729-1737).  The port is parsed
but unused by the branch. -/
def applyAudioComponent (st : StationState) (id : Nat) (portStr : String)
    (pty : Nat) : StationState :=
  let _p := hexVal portStr
  if st.lastType = some "audio" ∧ id = 0 ∧ st.numStreams > 0 then
    { st with Programs := st.Programs.set (st.numStreams - 1) (program_type_name pty) }
  else st

/-- One structural-announcement line, carried as the regex groups read by
the corresponding `parseFeedback` branch. -/
inductive SigLine where
  | service (t : String) (num : Nat) (nm : String)
  | dataComp (id : Nat) (port : String) (sdt : Nat)
  | audioComp (id : Nat) (port : String) (pty : Nat)
deriving DecidableEq, Repr

/-- Dispatch of one line to its handler. -/
def applyLine (st : StationState) : SigLine → StationState
  | SigLine.service t s n => applySigService st t s n
  | SigLine.dataComp id p sdt => applyDataComponent st id p sdt
  | SigLine.audioComp id p pty => applyAudioComponent st id p pty

/-- Sequential processing of a list of lines. -/
def applyLines (st : StationState) (ls : List SigLine) : StationState :=
  ls.foldl applyLine st

/-- `checkPorts` (lines 1559-1565): scans slots `i` in `range(0, 7)` and
remembers the last slot whose recorded port list has an entry at position
`type` equal to `port`; `-1` when none is found.  Note that the loop stops
at slot 6: slot 7 is never examined. -/
def checkPorts (streams : List (List Nat)) (port : Nat) (t : Nat) : Int :=
  (List.range 7).foldl
    (fun result i =>
      if t < (streams.getD i []).length then
        (if port = (streams.getD i []).getD t 0 then (i : Int) else result)
      else result)
    (-1)

/-- The `self.mapData` fields that the map subsystem reads and writes
(the GUI-only `mapMode` and `viewerConfig` entries are elided).
`mapTiles` is the 3×3 grid of tile timestamps (`0` meaning "empty");
timestamps are `Int` because `dtToTs` can return negative values for
pre-epoch dates. -/
structure MapData where
  mapTiles : Fin 3 → Fin 3 → Int
  mapComplete : Bool
  weatherTime : Int
  weatherPos : List Rat
  weatherNow : String
  weatherID : String

instance : DecidableEq MapData := fun a b =>
  decidable_of_iff
    (a.mapTiles = b.mapTiles ∧ a.mapComplete = b.mapComplete ∧
     a.weatherTime = b.weatherTime ∧ a.weatherPos = b.weatherPos ∧
     a.weatherNow = b.weatherNow ∧ a.weatherID = b.weatherID)
    (by cases a; cases b; simp)

/-- The initial `self.mapData` literal (lines 138-154). -/
def initMapData : MapData :=
  { mapTiles := fun _ _ => 0, mapComplete := false, weatherTime := 0,
    weatherPos := [0, 0, 0, 0], weatherNow := "", weatherID := "" }

/-- Assignment `self.mapData["mapTiles"][x][y] = v`. -/
def setTile (g : Fin 3 → Fin 3 → Int) (x y : Fin 3) (v : Int) :
    Fin 3 → Fin 3 → Int :=
  fun i j => if i = x ∧ j = y then v else g i j

/-- `checkTiles` (lines 1539-1545): both loops run over `range(0, 3)` and
the scan fails as soon as one cell differs from `t`. -/
def checkTiles (g : Fin 3 → Fin 3 → Int) (t : Int) : Bool :=
  (List.finRange 3).all fun i => (List.finRange 3).all fun j => g i j == t

/-- Observable outcome of one `finishTrafficMap` call. `rawDeleteTried`
records the `os.remove` attempt of the duplicate branch (its own failure
is swallowed by `except: pass`, which is why the result does not depend
on the `delOk` argument); `compositeSaved` records the
`imgMap.save(.../TrafficMap.png)` write; `raised` records an exception
escaping the call. -/
structure TrafficResult where
  state : MapData
  rawDeleteTried : Bool
  compositeSaved : Bool
  raised : Bool
deriving DecidableEq

/-- `finishTrafficMap` (lines 1269-1322).  `moveOk` is the outcome of the
`shutil.move` try-block (lines 1284-1291, caught: the cell is reset to 0);
`stitchOk` is the outcome of the stitch-and-save block (lines 1299-1322)
which is NOT inside any try: on failure the exception escapes with the
mutations made so far (`mapComplete` already `true`, the cell still
holding `ts`) left in place.  `delOk` is the outcome of the duplicate
branch's `os.remove` (line 1274), swallowed by `except: pass`. -/
def finishTrafficMap (m : MapData) (ts : Int) (x y : Fin 3)
    (moveOk stitchOk _delOk : Bool) : TrafficResult :=
  if m.mapTiles x y = ts then
    { state := m, rawDeleteTried := true, compositeSaved := false, raised := false }
  else
    let m1 : MapData := { m with mapComplete := false, mapTiles := setTile m.mapTiles x y ts }
    let m2 : MapData :=
      if moveOk then m1 else { m1 with mapTiles := setTile m1.mapTiles x y 0 }
    if checkTiles m2.mapTiles ts then
      let m3 : MapData := { m2 with mapComplete := true }
      if stitchOk then
        { state := m3, rawDeleteTried := false, compositeSaved := true, raised := false }
      else
        { state := m3, rawDeleteTried := false, compositeSaved := false, raised := true }
    else
      { state := m2, rawDeleteTried := false, compositeSaved := false, raised := false }

/-- One traffic-tile arrival: the timestamp and grid position parsed from
the filename, plus the outcomes of the two file-system blocks. -/
structure TrafficArrival where
  ts : Int
  x : Fin 3
  y : Fin 3
  moveOk : Bool
  stitchOk : Bool
deriving DecidableEq

/-- State reached after a sequence of traffic-tile arrivals (the state is
kept across a raising arrival, as Python keeps mutations made before an
exception). -/
def applyTraffic (m : MapData) (l : List TrafficArrival) : MapData :=
  l.foldl (fun s a => (finishTrafficMap s a.ts a.x a.y a.moveOk a.stitchOk true).state) m

/-- A composited weather-map file in the map directory, identified by the
two regex groups of `proccessWeatherMaps`: location id and timestamp. -/
structure WMapFile where
  id : String
  ts : Int
deriving DecidableEq

/-- Path of the composited weather map for `(id, ts)`, as produced by
`"WeatherMap_{:s}_{:}.png".format(id, ts)` inside the map directory. -/
def wmapPath (mapDir : String) (f : WMapFile) : String :=
  mapDir ++ "/WeatherMap_" ++ f.id ++ "_" ++ toString f.ts ++ ".png"

/-- The 12-hour staleness test `now - ts > 60*60*12` of line 1491. -/
def wmapStale (now : Int) (f : WMapFile) : Bool :=
  now - f.ts > 60 * 60 * 12

/-- One iteration of the `proccessWeatherMaps` scan loop (lines 1484-1504)
on the accumulator `(self.weatherMaps, files deleted so far)`: a stale
file is popped from the list (first occurrence, if present) and deleted
from disk regardless of its id; an in-window file with the current id is
appended if absent; any other file is skipped. -/
def weatherMapsStep (weatherID : String) (now : Int) (mapDir : String)
    (acc : List String × List String) (f : WMapFile) :
    List String × List String :=
  let p := wmapPath mapDir f
  if wmapStale now f then
    (acc.1.erase p, acc.2 ++ [p])
  else if f.id = weatherID then
    (if p ∈ acc.1 then acc.1 else acc.1 ++ [p], acc.2)
  else acc

/-- `proccessWeatherMaps` (lines 1477-1507).  `files` is the sorted
directory listing `glob(mapDir/WeatherMap_*.png)` after `files.sort()`,
already destructured into the two regex groups; returns the new
`self.weatherMaps` list and the list of files deleted from disk. -/
def proccessWeatherMaps (weatherID : String) (now : Int) (mapDir : String)
    (files : List WMapFile) (wm : List String) :
    List String × List String :=
  files.foldl (weatherMapsStep weatherID now mapDir) (wm, [])

/-- Observable outcome of one weather-overlay arrival. -/
structure WeatherResult where
  state : MapData
  weatherMaps : List String
  deletedMaps : List String
  rawDeleteTried : Bool
  compositeSaved : Bool
  raised : Bool
  rejected : Bool
deriving DecidableEq

/-- `finishWeatherOverlay` (lines 1365-1422).  `moveOk` is the outcome of
the overlay-move try-block (lines 1382-1387; caught: `weatherTime` is
reset to 0 and execution continues); `compOk` is the outcome of the
whole composite try-block (lines 1390-1418; caught: `weatherTime` is
reset to 0).  On composite success the block stores the new composite
path in `weatherNow` and refreshes the weather-map list via
`proccessWeatherMaps` (`files`/`now` are that refresh's inputs).
`delOk` is the duplicate branch's swallowed `os.remove` outcome. -/
def finishWeatherOverlay (m : MapData) (wm : List String) (ts : Int)
    (id : String) (_isHERE : Bool) (mapDir : String)
    (moveOk compOk _delOk : Bool) (files : List WMapFile) (now : Int) :
    WeatherResult :=
  if m.weatherTime = ts then
    { state := m, weatherMaps := wm, deletedMaps := [], rawDeleteTried := true,
      compositeSaved := false, raised := false, rejected := false }
  else
    let m1 : MapData := { m with weatherTime := ts }
    let m2 : MapData := if moveOk then m1 else { m1 with weatherTime := 0 }
    if compOk then
      let wxMapPath := wmapPath mapDir { id := id, ts := ts }
      let m3 : MapData := { m2 with weatherNow := wxMapPath }
      let pr := proccessWeatherMaps m3.weatherID now mapDir files wm
      { state := m3, weatherMaps := pr.1, deletedMaps := pr.2,
        rawDeleteTried := false, compositeSaved := true, raised := false,
        rejected := false }
    else
      { state := { m2 with weatherTime := 0 }, weatherMaps := wm,
        deletedMaps := [], rawDeleteTried := false, compositeSaved := false,
        raised := false, rejected := false }

/-- `processWeatherOverlay` (lines 1344-1363): `g1` is the location-id
group `m.group(1)` of the `DWRO` filename regex and `ts` the timestamp
parsed from the filename.  The overlay is handed to
`finishWeatherOverlay` unless `g1` differs from the stored weather id, in
which case the call only logs and returns: nothing is deleted and no state
changes.  (Note the check is a plain inequality: when the stored id is
still empty AND the filename's id group is also empty — e.g. group 1 of
`1_DWRO___20200101_1900_ab.png` is the empty string — the overlay is
processed, not rejected.) -/
def processWeatherOverlay (m : MapData) (wm : List String) (g1 : String)
    (ts : Int) (mapDir : String) (moveOk compOk delOk : Bool)
    (files : List WMapFile) (now : Int) : WeatherResult :=
  let id := m.weatherID
  if g1 ≠ id then
    { state := m, weatherMaps := wm, deletedMaps := [], rawDeleteTried := false,
      compositeSaved := false, raised := false, rejected := true }
  else
    finishWeatherOverlay m wm ts id false mapDir moveOk compOk delOk files now

/-- What `makeBaseMap` wrote, if it was invoked at all. -/
inductive BaseMapWrite where
  | kept
  | cropped
  | blank
deriving DecidableEq

/-- `makeBaseMap` (lines 1524-1537): when the full reference map file
exists, the cropped base map is created ONLY if `BaseMap_<id>.png` is not
already present (`kept` otherwise); when the reference map is missing, a
blank image is saved unconditionally. -/
def makeBaseMap (_id : String) (_pos : List Rat)
    (mapFileExists baseMapExists : Bool) : BaseMapWrite :=
  if mapFileExists then
    (if baseMapExists then BaseMapWrite.kept else BaseMapWrite.cropped)
  else BaseMapWrite.blank

/-- Observable outcome of one weather-metadata arrival.  `baseWrite` is
`none` when `makeBaseMap` was not invoked. -/
structure WeatherInfoResult where
  state : MapData
  weatherMaps : List String
  deletedMaps : List String
  baseWrite : Option BaseMapWrite
  updated : Bool
deriving DecidableEq

/-- `proccessWeatherInfo` (lines 1424-1454) after the metadata file has
been read: `wid?` and `wpos?` are the extracted `DWR_Area_ID` and
`Coordinates` fields (`none` when absent or when the read raised).  When
both are present and either differs from the stored values, both are
replaced, `makeBaseMap` runs, and the in-memory list is cleared and
rescanned via `proccessWeatherMaps`; otherwise nothing changes. -/
def proccessWeatherInfo (m : MapData) (wm : List String)
    (wid? : Option String) (wpos? : Option (List Rat))
    (mapFileExists baseMapExists : Bool) (mapDir : String)
    (files : List WMapFile) (now : Int) : WeatherInfoResult :=
  match wid?, wpos? with
  | some wid, some wpos =>
    if m.weatherID ≠ wid ∨ m.weatherPos ≠ wpos then
      let m1 : MapData := { m with weatherID := wid, weatherPos := wpos }
      let bw := makeBaseMap wid wpos mapFileExists baseMapExists
      let pr := proccessWeatherMaps m1.weatherID now mapDir files []
      { state := m1, weatherMaps := pr.1, deletedMaps := pr.2,
        baseWrite := some bw, updated := true }
    else
      { state := m, weatherMaps := wm, deletedMaps := [], baseWrite := none,
        updated := false }
  | _, _ =>
    { state := m, weatherMaps := wm, deletedMaps := [], baseWrite := none,
      updated := false }

/-- The mutable state of the application that `initStreamInfo` can see:
the station model plus the map subsystem's `self.mapData` and
`self.weatherMaps`. -/
structure AppState where
  station : StationState
  mapData : MapData
  weatherMaps : List String

/-- `initStreamInfo` (lines 1888-1914): replaces the station state with a
fresh one (the GUI-label clearing at lines 1916-1928 touches widgets
only).  No map field is assigned anywhere in its body. -/
def initStreamInfo (a : AppState) : AppState :=
  { a with station := initStationState }

/-- The three lines of the spec's worked example, as the regex groups the
`parseFeedback` branches extract from them. -/
def c1Lines : List SigLine :=
  [SigLine.service "audio" 1 "MPS", SigLine.dataComp 0 "0020" 29,
   SigLine.dataComp 0 "0021" 80]

/-- Port table produced by declaring audio stream 8 and announcing two
ports for it. -/
def c6Streams : List (List Nat) :=
  [[], [], [], [], [], [], [], [100, 101]]

/-- Tile grid after a non-duplicate `finishTrafficMap` store: the arrival
timestamp is written to its cell, then overwritten with the empty
sentinel 0 when the tile move failed. -/
def tilesAfter (m : MapData) (ts : Int) (x y : Fin 3) (moveOk : Bool) :
    Fin 3 → Fin 3 → Int :=
  if moveOk then setTile m.mapTiles x y ts
  else setTile (setTile m.mapTiles x y ts) x y 0

/-- The claimed grid invariant: `mapComplete` is set exactly when the
nine cells hold one common non-zero timestamp. -/
abbrev TilesInv (m : MapData) : Prop :=
  m.mapComplete = true ↔
    (m.mapTiles 0 0 ≠ 0 ∧ ∀ i j, m.mapTiles i j = m.mapTiles 0 0)

/-- A successful tile arrival for timestamp 5 at cell (0,0), followed by
a tile whose filename encodes the Unix epoch (`..._19700101_0000_...`,
which `dtToTs` maps to 0) at the same cell. -/
def c2CexArrivals : List TrafficArrival :=
  [{ ts := 5, x := 0, y := 0, moveOk := true, stitchOk := true },
   { ts := 0, x := 0, y := 0, moveOk := true, stitchOk := true }]

/-- Eight successful tile arrivals for timestamp 7, covering every cell
except (2,2). -/
def eightArrivals7 : List TrafficArrival :=
  [{ ts := 7, x := 0, y := 0, moveOk := true, stitchOk := true },
   { ts := 7, x := 0, y := 1, moveOk := true, stitchOk := true },
   { ts := 7, x := 0, y := 2, moveOk := true, stitchOk := true },
   { ts := 7, x := 1, y := 0, moveOk := true, stitchOk := true },
   { ts := 7, x := 1, y := 1, moveOk := true, stitchOk := true },
   { ts := 7, x := 1, y := 2, moveOk := true, stitchOk := true },
   { ts := 7, x := 2, y := 0, moveOk := true, stitchOk := true },
   { ts := 7, x := 2, y := 1, moveOk := true, stitchOk := true }]

/-- The map state with eight cells at timestamp 7 and cell (2,2) empty. -/
def c7Pre : MapData := applyTraffic initMapData eightArrivals7

/-- Stored metadata state for the C9 scenario: id "A" with bounding box
[1, 2, 3, 4], base map already on disk. -/
def c9Pre : MapData :=
  { initMapData with weatherID := "A", weatherPos := [1, 2, 3, 4] }

/-- Directory contents for the C5 counterexample: composited maps for id
"X" at timestamps 1000 and 2000 (both within the 12-hour window of
`now = 2500`). -/
def c5CexFiles : List WMapFile :=
  [{ id := "X", ts := 1000 }, { id := "X", ts := 2000 }]

/-- Directory contents for the C5 witness: one stale file, one in-window
file of the current id "X", one in-window file of a foreign id. -/
def c5WitFiles : List WMapFile :=
  [{ id := "X", ts := 1000 }, { id := "X", ts := 40000 },
   { id := "Y", ts := 40000 }]

/-- The in-memory weather-map list (a list of path strings) is ordered by
the timestamps of the scanned files its entries refer to. -/
def wmTsOrdered (mapDir : String) (files : List WMapFile) (l : List String) :
    Prop :=
  l.Pairwise (fun p q => ∀ fp ∈ files, ∀ fq ∈ files,
    wmapPath mapDir fp = p → wmapPath mapDir fq = q → fp.ts ≤ fq.ts)

/- ------------------------------------------------------------------ -/
/- Shared lemmas -/
/- ------------------------------------------------------------------ -/

theorem checkTiles_eq_true_iff (g : Fin 3 → Fin 3 → Int) (t : Int) :
    checkTiles g t = true ↔ ∀ i j, g i j = t := by
  simp [checkTiles, List.all_eq_true, List.mem_finRange]

theorem setTile_same (g : Fin 3 → Fin 3 → Int) (x y : Fin 3) (v : Int) :
    setTile g x y v x y = v := by
  simp [setTile]

theorem setTile_other (g : Fin 3 → Fin 3 → Int) (x y i j : Fin 3) (v : Int)
    (h : ¬(i = x ∧ j = y)) : setTile g x y v i j = g i j := by
  simp [setTile, h]

theorem tilesAfter_same (m : MapData) (ts : Int) (x y : Fin 3) (moveOk : Bool) :
    tilesAfter m ts x y moveOk x y = if moveOk then ts else 0 := by
  cases moveOk <;> simp [tilesAfter, setTile]

theorem tilesAfter_other (m : MapData) (ts : Int) (x y i j : Fin 3)
    (moveOk : Bool) (h : ¬(i = x ∧ j = y)) :
    tilesAfter m ts x y moveOk i j = m.mapTiles i j := by
  cases moveOk <;> simp [tilesAfter, setTile, h]

theorem finishTrafficMap_state_of_ne (m : MapData) (ts : Int) (x y : Fin 3)
    (moveOk stitchOk delOk : Bool) (hdup : m.mapTiles x y ≠ ts) :
    (finishTrafficMap m ts x y moveOk stitchOk delOk).state =
      { m with mapComplete := checkTiles (tilesAfter m ts x y moveOk) ts,
               mapTiles := tilesAfter m ts x y moveOk } := by
  cases hmv : moveOk <;>
    simp only [finishTrafficMap, if_neg hdup, tilesAfter, Bool.false_eq_true,
      if_false, if_true] <;>
    split_ifs with h1 h2 <;>
    simp_all

theorem finishTrafficMap_flags_of_ne (m : MapData) (ts : Int) (x y : Fin 3)
    (moveOk stitchOk delOk : Bool) (hdup : m.mapTiles x y ≠ ts) :
    (finishTrafficMap m ts x y moveOk stitchOk delOk).raised =
      (checkTiles (tilesAfter m ts x y moveOk) ts && !stitchOk) ∧
    (finishTrafficMap m ts x y moveOk stitchOk delOk).compositeSaved =
      (checkTiles (tilesAfter m ts x y moveOk) ts && stitchOk) ∧
    (finishTrafficMap m ts x y moveOk stitchOk delOk).rawDeleteTried = false := by
  cases hmv : moveOk <;>
    simp only [finishTrafficMap, if_neg hdup, tilesAfter, Bool.false_eq_true,
      if_false, if_true] <;>
    split_ifs <;> simp_all

theorem finishTrafficMap_untouched (m : MapData) (ts : Int) (x y i j : Fin 3)
    (moveOk stitchOk delOk : Bool) (h : ¬(i = x ∧ j = y)) :
    (finishTrafficMap m ts x y moveOk stitchOk delOk).state.mapTiles i j =
      m.mapTiles i j := by
  by_cases hdup : m.mapTiles x y = ts
  · simp [finishTrafficMap, hdup]
  · rw [finishTrafficMap_state_of_ne m ts x y moveOk stitchOk delOk hdup]
    exact tilesAfter_other m ts x y i j moveOk h

theorem tilesInv_step (m : MapData) (ts : Int) (x y : Fin 3)
    (moveOk stitchOk delOk : Bool) (hts : ts ≠ 0) (h : TilesInv m) :
    TilesInv (finishTrafficMap m ts x y moveOk stitchOk delOk).state := by
  by_cases hdup : m.mapTiles x y = ts
  · simpa [finishTrafficMap, hdup] using h
  · rw [finishTrafficMap_state_of_ne m ts x y moveOk stitchOk delOk hdup]
    show checkTiles (tilesAfter m ts x y moveOk) ts = true ↔ _
    dsimp only
    constructor
    · intro hc
      have hall := (checkTiles_eq_true_iff _ ts).mp hc
      refine ⟨?_, ?_⟩
      · rw [hall 0 0]; exact hts
      · intro i j; rw [hall i j, hall 0 0]
    · rintro ⟨h00, hall⟩
      cases moveOk with
      | false =>
        exfalso
        have hxy : tilesAfter m ts x y false x y = 0 := by
          simpa using tilesAfter_same m ts x y false
        have hx0 := hall x y
        rw [hxy] at hx0
        exact h00 hx0.symm
      | true =>
        apply (checkTiles_eq_true_iff _ ts).mpr
        have hxy : tilesAfter m ts x y true x y = ts := by
          simpa using tilesAfter_same m ts x y true
        have h00ts : tilesAfter m ts x y true 0 0 = ts := by
          rw [← hall x y]; exact hxy
        intro i j
        rw [hall i j, h00ts]

theorem applyTraffic_cons (m : MapData) (a : TrafficArrival)
    (l : List TrafficArrival) :
    applyTraffic m (a :: l) =
      applyTraffic (finishTrafficMap m a.ts a.x a.y a.moveOk a.stitchOk
        true).state l := by
  simp [applyTraffic]

theorem tilesInv_applyTraffic (l : List TrafficArrival)
    (hts : ∀ a ∈ l, a.ts ≠ 0) (m : MapData) (h : TilesInv m) :
    TilesInv (applyTraffic m l) := by
  induction l generalizing m with
  | nil => exact h
  | cons a t ih =>
    rw [applyTraffic_cons]
    exact ih (fun b hb => hts b (List.mem_cons_of_mem a hb)) _
      (tilesInv_step m a.ts a.x a.y a.moveOk a.stitchOk true
        (hts a (List.mem_cons_self a t)) h)

theorem applyTraffic_untouched (l : List TrafficArrival) (m : MapData)
    (i j : Fin 3) (h : ∀ a ∈ l, ¬(i = a.x ∧ j = a.y)) :
    (applyTraffic m l).mapTiles i j = m.mapTiles i j := by
  induction l generalizing m with
  | nil => rfl
  | cons a t ih =>
    rw [applyTraffic_cons]
    rw [ih _ (fun b hb => h b (List.mem_cons_of_mem a hb))]
    exact finishTrafficMap_untouched m a.ts a.x a.y i j a.moveOk a.stitchOk
      true (h a (List.mem_cons_self a t))

theorem weatherMaps_foldl_snd (weatherID : String) (now : Int)
    (mapDir : String) (files : List WMapFile)
    (acc : List String × List String) :
    (files.foldl (weatherMapsStep weatherID now mapDir) acc).2 =
      acc.2 ++ (files.filter (wmapStale now)).map (wmapPath mapDir) := by
  induction files generalizing acc with
  | nil => simp
  | cons f t ih =>
    rw [List.foldl_cons, ih]
    by_cases hs : wmapStale now f = true
    · simp [weatherMapsStep, hs]
    · have hs0 : wmapStale now f = false := by simpa using hs
      by_cases hid : f.id = weatherID <;>
        simp [weatherMapsStep, hs0, hid, apply_ite]

theorem weatherMapsStep_mem_ne (weatherID : String) (now : Int)
    (mapDir : String) (acc : List String × List String) (f : WMapFile)
    (p : String) (h : wmapPath mapDir f ≠ p) :
    (p ∈ (weatherMapsStep weatherID now mapDir acc f).1 ↔ p ∈ acc.1) := by
  simp only [weatherMapsStep]
  split_ifs with h1 h2 h3
  · exact List.mem_erase_of_ne (Ne.symm h)
  · exact Iff.rfl
  · simp [Ne.symm h]
  · exact Iff.rfl

theorem weatherMaps_foldl_mem_untouched (weatherID : String) (now : Int)
    (mapDir : String) (files : List WMapFile)
    (acc : List String × List String) (p : String)
    (h : ∀ f ∈ files, wmapPath mapDir f ≠ p) :
    (p ∈ (files.foldl (weatherMapsStep weatherID now mapDir) acc).1 ↔
      p ∈ acc.1) := by
  induction files generalizing acc with
  | nil => exact Iff.rfl
  | cons f t ih =>
    rw [List.foldl_cons]
    exact (ih _ (fun g hg => h g (List.mem_cons_of_mem f hg))).trans
      (weatherMapsStep_mem_ne weatherID now mapDir acc f p
        (h f (List.mem_cons_self f t)))

theorem weatherMapsStep_nodup (weatherID : String) (now : Int)
    (mapDir : String) (acc : List String × List String) (f : WMapFile)
    (h : acc.1.Nodup) :
    ((weatherMapsStep weatherID now mapDir acc f).1).Nodup := by
  simp only [weatherMapsStep]
  split_ifs with h1 h2 h3
  · exact h.erase _
  · exact h
  · simp [List.nodup_append, h, h3]
  · exact h

theorem weatherMaps_foldl_stale_not_mem (weatherID : String) (now : Int)
    (mapDir : String) (files : List WMapFile)
    (acc : List String × List String) (f : WMapFile) (hf : f ∈ files)
    (hs : wmapStale now f = true)
    (hnd : (files.map (wmapPath mapDir)).Nodup) (hacc : acc.1.Nodup) :
    wmapPath mapDir f ∉
      (files.foldl (weatherMapsStep weatherID now mapDir) acc).1 := by
  induction files generalizing acc with
  | nil => cases hf
  | cons g t ih =>
    rw [List.foldl_cons]
    rw [List.map_cons] at hnd
    rcases List.mem_cons.mp hf with rfl | hft
    · have huntouched : ∀ b ∈ t, wmapPath mapDir b ≠ wmapPath mapDir f := by
        intro b hb heq
        exact (List.nodup_cons.mp hnd).1 (heq ▸ List.mem_map_of_mem _ hb)
      rw [weatherMaps_foldl_mem_untouched weatherID now mapDir t _ _ huntouched]
      have hstep : (weatherMapsStep weatherID now mapDir acc f).1 =
          acc.1.erase (wmapPath mapDir f) := by
        simp [weatherMapsStep, hs]
      rw [hstep]
      intro hmem
      exact (hacc.mem_erase_iff.mp hmem).1 rfl
    · exact ih _ hft (List.nodup_cons.mp hnd).2
        (weatherMapsStep_nodup weatherID now mapDir acc g hacc)

theorem weatherMaps_foldl_keep_mem (weatherID : String) (now : Int)
    (mapDir : String) (files : List WMapFile)
    (acc : List String × List String) (f : WMapFile) (hf : f ∈ files)
    (hs : wmapStale now f = false) (hid : f.id = weatherID)
    (hnd : (files.map (wmapPath mapDir)).Nodup) :
    wmapPath mapDir f ∈
      (files.foldl (weatherMapsStep weatherID now mapDir) acc).1 := by
  induction files generalizing acc with
  | nil => cases hf
  | cons g t ih =>
    rw [List.foldl_cons]
    rw [List.map_cons] at hnd
    rcases List.mem_cons.mp hf with rfl | hft
    · have huntouched : ∀ b ∈ t, wmapPath mapDir b ≠ wmapPath mapDir f := by
        intro b hb heq
        exact (List.nodup_cons.mp hnd).1 (heq ▸ List.mem_map_of_mem _ hb)
      rw [weatherMaps_foldl_mem_untouched weatherID now mapDir t _ _ huntouched]
      by_cases hin : wmapPath mapDir f ∈ acc.1 <;>
        simp [weatherMapsStep, hs, hid, hin]
    · exact ih _ hft (List.nodup_cons.mp hnd).2

theorem weatherMaps_foldl_other_mem (weatherID : String) (now : Int)
    (mapDir : String) (files : List WMapFile)
    (acc : List String × List String) (f : WMapFile) (hf : f ∈ files)
    (hs : wmapStale now f = false) (hid : f.id ≠ weatherID)
    (hnd : (files.map (wmapPath mapDir)).Nodup) :
    (wmapPath mapDir f ∈
        (files.foldl (weatherMapsStep weatherID now mapDir) acc).1 ↔
      wmapPath mapDir f ∈ acc.1) := by
  induction files generalizing acc with
  | nil => cases hf
  | cons g t ih =>
    rw [List.foldl_cons]
    rw [List.map_cons] at hnd
    rcases List.mem_cons.mp hf with rfl | hft
    · have huntouched : ∀ b ∈ t, wmapPath mapDir b ≠ wmapPath mapDir f := by
        intro b hb heq
        exact (List.nodup_cons.mp hnd).1 (heq ▸ List.mem_map_of_mem _ hb)
      rw [weatherMaps_foldl_mem_untouched weatherID now mapDir t _ _ huntouched]
      have hstep : weatherMapsStep weatherID now mapDir acc f = acc := by
        simp [weatherMapsStep, hs, hid]
      rw [hstep]
    · have hne : wmapPath mapDir g ≠ wmapPath mapDir f := by
        intro heq
        exact (List.nodup_cons.mp hnd).1 (heq ▸ List.mem_map_of_mem _ hft)
      exact (ih _ hft (List.nodup_cons.mp hnd).2).trans
        (weatherMapsStep_mem_ne weatherID now mapDir acc g _ hne)

theorem weatherMaps_foldl_fst_char (weatherID : String) (now : Int)
    (mapDir : String) (files : List WMapFile)
    (acc : List String × List String)
    (hnd : (files.map (wmapPath mapDir)).Nodup)
    (hdisj : ∀ f ∈ files, wmapPath mapDir f ∉ acc.1) :
    (files.foldl (weatherMapsStep weatherID now mapDir) acc).1 =
      acc.1 ++ (files.filter
        (fun f => !wmapStale now f && f.id == weatherID)).map
          (wmapPath mapDir) := by
  induction files generalizing acc with
  | nil => simp
  | cons g t ih =>
    rw [List.foldl_cons]
    rw [List.map_cons] at hnd
    have hnd' := (List.nodup_cons.mp hnd).2
    have hg := hdisj g (List.mem_cons_self g t)
    by_cases hs : wmapStale now g = true
    · have hfst : (weatherMapsStep weatherID now mapDir acc g).1 = acc.1 := by
        simp [weatherMapsStep, hs, List.erase_of_not_mem hg]
      rw [ih _ hnd' (fun f hf => by
        rw [hfst]; exact hdisj f (List.mem_cons_of_mem g hf)), hfst]
      simp [List.filter_cons, hs]
    · have hs0 : wmapStale now g = false := by simpa using hs
      by_cases hid : g.id = weatherID
      · have hfst : (weatherMapsStep weatherID now mapDir acc g).1 =
            acc.1 ++ [wmapPath mapDir g] := by
          simp [weatherMapsStep, hs0, hid, hg]
        rw [ih _ hnd' (fun f hf => by
          rw [hfst]
          have hne : wmapPath mapDir f ≠ wmapPath mapDir g := by
            intro heq
            exact (List.nodup_cons.mp hnd).1 (heq ▸ List.mem_map_of_mem _ hf)
          simp [hne, hdisj f (List.mem_cons_of_mem g hf)]), hfst]
        simp [List.filter_cons, hs0, hid, List.append_assoc]
      · have hfst : weatherMapsStep weatherID now mapDir acc g = acc := by
          simp [weatherMapsStep, hs0, hid]
        rw [hfst, ih _ hnd' (fun f hf => hdisj f (List.mem_cons_of_mem g hf))]
        simp [List.filter_cons, hs0, hid]

theorem makeBaseMap_kept_iff (id : String) (pos : List Rat) (fe be : Bool) :
    makeBaseMap id pos fe be = BaseMapWrite.kept ↔ (fe = true ∧ be = true) := by
  cases fe <;> cases be <;> simp [makeBaseMap]

theorem find_map_eq_none (l : List (Nat × String)) (t : Nat) :
    (l.find? (fun kv => kv.1 == t)).map (fun kv => kv.2) = none ↔
      t ∉ l.map Prod.fst := by
  simp [Option.map_eq_none', List.find?_eq_none, List.mem_map]
  constructor
  · intro h kv hkv
    exact h t kv hkv rfl
  · intro h a b hab ha
    subst ha
    exact h b hab

/- ------------------------------------------------------------------ -/
/- Claims -/
/- ------------------------------------------------------------------ -/

/-- C1: starting from a fresh station state, the line
`SIG Service: type=audio number=1 name=MPS` followed by
`Data component: id=0 port=0020 service_data_type=29` and
`Data component: id=0 port=0021 service_data_type=80` leaves slot 0's
port list equal to `[0x20, 0x21]` (each port parsed as hexadecimal and
appended in arrival order to the most recently declared audio slot), and
leaves `SvcTypes` untouched (the declared stream type is audio, so the
`service_data_type` branch does not fire); nothing else of the final
state changes besides the stream declaration itself. -/
theorem c1_port_append :
    (applyLines initStationState c1Lines).streams =
      [[0x20, 0x21], [], [], [], [], [], [], []] ∧
    (applyLines initStationState c1Lines).SvcTypes = initStationState.SvcTypes ∧
    hexVal "0020" = 0x20 ∧ hexVal "0021" = 0x21 ∧
    applyLines initStationState c1Lines =
      { initStationState with
          Streams := ["MPS", "", "", "", "", "", "", ""],
          numStreams := 1,
          lastType := some "audio",
          streams := [[0x20, 0x21], [], [], [], [], [], [], []] } := by
  refine ⟨?_, ?_, ?_, ?_, ?_⟩ <;> decide

/-- C6 (code evaluated at the failing input): the port table built by
declaring audio stream number 8 and announcing ports 0x64 and 0x65 for it
records those ports at positions 0 and 1 of slot 7, yet `checkPorts`
resolves neither (its loop runs over `range(0, 7)` and never examines
slot 7), while the same ports recorded in slot 6 do resolve. -/
theorem c6_slot7_never_searched :
    (applyLines initStationState
      [SigLine.service "audio" 8 "HD8", SigLine.dataComp 0 "0064" 29,
       SigLine.dataComp 0 "0065" 29]).streams = c6Streams ∧
    (c6Streams.getD 7 []).getD 0 0 = 100 ∧
    (c6Streams.getD 7 []).getD 1 0 = 101 ∧
    checkPorts c6Streams 100 0 = -1 ∧
    checkPorts c6Streams 101 1 = -1 ∧
    checkPorts [[], [], [], [], [], [], [100, 101], []] 100 0 = 6 ∧
    checkPorts [[], [], [], [], [], [], [100, 101], []] 101 1 = 6 := by
  refine ⟨?_, ?_, ?_, ?_, ?_, ?_, ?_⟩ <;> decide

/-- C10: `initStreamInfo` replaces the station state with the fresh
default (all eight slot port lists empty, counters zero, current stream
type cleared) and leaves every map-subsystem field — the tile grid,
`mapComplete`, `weatherID`, bounding box, `weatherTime`, current-map
path and the weather-map list — exactly as it was. -/
theorem c10_reset_preserves_map_state (a : AppState) :
    (initStreamInfo a).mapData = a.mapData ∧
    (initStreamInfo a).weatherMaps = a.weatherMaps ∧
    (initStreamInfo a).mapData.mapTiles = a.mapData.mapTiles ∧
    (initStreamInfo a).mapData.mapComplete = a.mapData.mapComplete ∧
    (initStreamInfo a).mapData.weatherID = a.mapData.weatherID ∧
    (initStreamInfo a).mapData.weatherPos = a.mapData.weatherPos ∧
    (initStreamInfo a).mapData.weatherTime = a.mapData.weatherTime ∧
    (initStreamInfo a).mapData.weatherNow = a.mapData.weatherNow ∧
    (initStreamInfo a).station = initStationState ∧
    initStationState.streams = [[], [], [], [], [], [], [], []] ∧
    initStationState.numStreams = 0 ∧
    initStationState.numServices = 0 ∧
    initStationState.lastType = none := by
  exact ⟨rfl, rfl, rfl, rfl, rfl, rfl, rfl, rfl, rfl, rfl, rfl, rfl, rfl⟩

/-- C3: a duplicate arrival — a traffic tile whose timestamp equals the
stored grid-cell timestamp, or a weather overlay whose timestamp equals
the stored `weatherTime` — only attempts to delete the raw source file,
writes no composite, leaves every piece of map state unchanged and never
raises, whatever the outcome of the deletion itself; moreover a first,
non-duplicate arrival whose file operations succeed stores exactly the
timestamp that makes the identical second arrival hit the duplicate
branch. -/
theorem c3_duplicate_is_noop (m : MapData) (wm : List String) (ts : Int)
    (x y : Fin 3) (moveOk stitchOk delOk compOk : Bool) (id : String)
    (isHERE : Bool) (mapDir : String) (files : List WMapFile) (now : Int) :
    (m.mapTiles x y = ts →
      finishTrafficMap m ts x y moveOk stitchOk delOk =
        { state := m, rawDeleteTried := true, compositeSaved := false,
          raised := false }) ∧
    (m.weatherTime = ts →
      finishWeatherOverlay m wm ts id isHERE mapDir moveOk compOk delOk files now =
        { state := m, weatherMaps := wm, deletedMaps := [],
          rawDeleteTried := true, compositeSaved := false, raised := false,
          rejected := false }) ∧
    (m.mapTiles x y ≠ ts →
      (finishTrafficMap m ts x y true stitchOk delOk).state.mapTiles x y = ts) ∧
    (m.weatherTime ≠ ts → moveOk = true → compOk = true →
      (finishWeatherOverlay m wm ts id isHERE mapDir moveOk compOk delOk
        files now).state.weatherTime = ts) := by
  refine ⟨?_, ?_, ?_, ?_⟩
  · intro h
    simp [finishTrafficMap, h]
  · intro h
    simp [finishWeatherOverlay, h]
  · intro h
    simp only [finishTrafficMap, if_neg h]
    split_ifs <;> simp [setTile]
  · intro h hm hc
    simp [finishWeatherOverlay, h, hm, hc]

/-- C3 witness: concrete duplicate arrivals (timestamp 0 against the
initial state, whose stored timestamps are 0) evaluated through the
theorem. -/
theorem c3_duplicate_is_noop_witness :
    initMapData.mapTiles 0 0 = 0 ∧ initMapData.weatherTime = 0 ∧
    finishTrafficMap initMapData 0 0 0 true true false =
      { state := initMapData, rawDeleteTried := true, compositeSaved := false,
        raised := false } ∧
    finishWeatherOverlay initMapData [] 0 "ABC" false "map" true true false [] 0 =
      { state := initMapData, weatherMaps := [], deletedMaps := [],
        rawDeleteTried := true, compositeSaved := false, raised := false,
        rejected := false } ∧
    (finishTrafficMap initMapData 7 1 2 true true true).state.mapTiles 1 2 = 7 ∧
    (finishWeatherOverlay initMapData [] 7 "ABC" false "map" true true true
      [] 0).state.weatherTime = 7 := by
  refine ⟨rfl, rfl, ?_, ?_, ?_, ?_⟩
  · exact (c3_duplicate_is_noop initMapData [] 0 0 0 true true false true "ABC"
      false "map" [] 0).1 rfl
  · exact (c3_duplicate_is_noop initMapData [] 0 0 0 true true false true "ABC"
      false "map" [] 0).2.1 rfl
  · exact (c3_duplicate_is_noop initMapData [] 7 1 2 true true true true "ABC"
      false "map" [] 0).2.2.1 (by decide)
  · exact (c3_duplicate_is_noop initMapData [] 7 1 2 true true true true "ABC"
      false "map" [] 0).2.2.2 (by decide) rfl rfl

/-- C8 counterexample: after a data service is declared and its type set
to "Weather" by a known code (29), a further port line carrying the
unknown code 2 does not leave `SvcTypes[0]` unchanged — it overwrites it
with `None`. -/
theorem c8_unknown_code_overwrites :
    (2 ∉ ServiceDataType.map Prod.fst) ∧
    (applyLines initStationState
      [SigLine.service "data" 1 "Nav", SigLine.dataComp 0 "0100" 29]).SvcTypes =
      [some "Weather", some "", some "", some ""] ∧
    (applyLines initStationState
      [SigLine.service "data" 1 "Nav", SigLine.dataComp 0 "0100" 29,
       SigLine.dataComp 0 "0100" 2]).SvcTypes =
      [none, some "", some "", some ""] := by
  refine ⟨?_, ?_, ?_⟩ <;> decide

/-- C8 (amended): a port line whose code is missing from the lookup table
raises no error, but it is not a no-op: the target `SvcTypes` (resp.
`Programs`) entry is overwritten with the table lookup's result, which is
`None` exactly for the unknown codes; the other table's fields are left
alone. -/
theorem c8_amended_lookup_result_stored (st : StationState) (id : Nat)
    (portStr : String) (t : Nat) :
    (st.lastType = some "data" → id = 0 → st.numServices > 0 →
      (applyDataComponent st id portStr t).SvcTypes =
        st.SvcTypes.set (st.numServices - 1) (service_data_type_name t) ∧
      (applyDataComponent st id portStr t).Programs = st.Programs) ∧
    (st.lastType = some "audio" → id = 0 → st.numStreams > 0 →
      (applyAudioComponent st id portStr t).Programs =
        st.Programs.set (st.numStreams - 1) (program_type_name t) ∧
      (applyAudioComponent st id portStr t).SvcTypes = st.SvcTypes) ∧
    (service_data_type_name t = none ↔ t ∉ ServiceDataType.map Prod.fst) ∧
    (program_type_name t = none ↔ t ∉ ProgramType.map Prod.fst) := by
  refine ⟨?_, ?_, ?_, ?_⟩
  · intro hl hid hn
    simp [applyDataComponent, hl, hid, hn]
  · intro hl hid hn
    simp [applyAudioComponent, hl, hid, hn]
  · exact find_map_eq_none ServiceDataType t
  · exact find_map_eq_none ProgramType t

/-- C8 amended witness: the theorem applied to the concrete state reached
in the counterexample, with the unknown code 2 and the known code 29. -/
theorem c8_amended_lookup_result_stored_witness :
    ((applyLines initStationState
        [SigLine.service "data" 1 "Nav", SigLine.dataComp 0 "0100" 29]).lastType
      = some "data") ∧
    (applyDataComponent
      (applyLines initStationState
        [SigLine.service "data" 1 "Nav", SigLine.dataComp 0 "0100" 29])
      0 "0100" 2).SvcTypes =
      ((applyLines initStationState
        [SigLine.service "data" 1 "Nav", SigLine.dataComp 0 "0100" 29]).SvcTypes.set
        0 (service_data_type_name 2)) ∧
    service_data_type_name 2 = none ∧
    program_type_name 27 = none := by
  refine ⟨by decide, ?_, ?_, ?_⟩
  · exact ((c8_amended_lookup_result_stored
      (applyLines initStationState
        [SigLine.service "data" 1 "Nav", SigLine.dataComp 0 "0100" 29])
      0 "0100" 2).1 (by decide) rfl (by decide)).1
  · exact (c8_amended_lookup_result_stored initStationState 0 "0100" 2).2.2.1.mpr
      (by decide)
  · exact (c8_amended_lookup_result_stored initStationState 0 "0100" 27).2.2.2.mpr
      (by decide)

/-- C2 counterexample: the claimed invariant fails on the code.  From the
fresh map state, a successful tile at (0,0) with timestamp 5 followed by
a tile at (0,0) whose filename encodes the Unix epoch (timestamp 0)
leaves `mapComplete = true` while every grid cell holds 0 — there is no
common non-zero timestamp. -/
theorem c2_counterexample :
    (applyTraffic initMapData c2CexArrivals).mapComplete = true ∧
    (∀ i j, (applyTraffic initMapData c2CexArrivals).mapTiles i j = 0) ∧
    ¬ TilesInv (applyTraffic initMapData c2CexArrivals) := by
  refine ⟨by decide, by decide, by decide⟩

/-- C2 (amended): provided every arriving tile timestamp is non-zero
(true of every tile filename except one encoding exactly the Unix
epoch), the invariant holds for every state reachable from the fresh
map state: `mapComplete` is true iff all nine cells hold one common
non-zero timestamp; in particular any arrival sequence that leaves some
cell untouched — e.g. any eight of the nine tiles — leaves `mapComplete`
false. -/
theorem c2_amended_mapComplete_iff (l : List TrafficArrival)
    (hts : ∀ a ∈ l, a.ts ≠ 0) :
    TilesInv (applyTraffic initMapData l) ∧
    (∀ i j : Fin 3, (∀ a ∈ l, ¬(i = a.x ∧ j = a.y)) →
      (applyTraffic initMapData l).mapComplete = false) := by
  have hinv := tilesInv_applyTraffic l hts initMapData (by decide)
  refine ⟨hinv, ?_⟩
  intro i j h
  have h0 : (applyTraffic initMapData l).mapTiles i j = 0 := by
    rw [applyTraffic_untouched l initMapData i j h]
    rfl
  by_contra hc
  have hc' : (applyTraffic initMapData l).mapComplete = true := by
    cases hv : (applyTraffic initMapData l).mapComplete
    · exact absurd hv hc
    · rfl
  obtain ⟨hne, hall⟩ := hinv.mp hc'
  have := hall i j
  rw [h0] at this
  exact hne this.symm

/-- C2 amended witness: the eight-of-nine arrival list for timestamp 7
satisfies the non-zero hypothesis; the theorem yields the invariant and
`mapComplete = false` at the untouched cell (2,2). -/
theorem c2_amended_mapComplete_iff_witness :
    (∀ a ∈ eightArrivals7, a.ts ≠ 0) ∧
    TilesInv (applyTraffic initMapData eightArrivals7) ∧
    (applyTraffic initMapData eightArrivals7).mapComplete = false := by
  refine ⟨by decide, (c2_amended_mapComplete_iff eightArrivals7 (by decide)).1,
    (c2_amended_mapComplete_iff eightArrivals7 (by decide)).2 2 2 (by decide)⟩

/-- C7 counterexample: with eight cells already at timestamp 7, the ninth
tile arrives, its move succeeds, but the stitch-and-save block (which,
unlike the move, sits outside any try) fails: the exception escapes
`finishTrafficMap` — and `parseFeedback`, since the `play` loop has no
handler around it — while the cell keeps timestamp 7, `mapComplete` stays
true and nothing is reset. -/
theorem c7_counterexample :
    (finishTrafficMap c7Pre 7 2 2 true false true).raised = true ∧
    (finishTrafficMap c7Pre 7 2 2 true false true).state.mapTiles 2 2 = 7 ∧
    (finishTrafficMap c7Pre 7 2 2 true false true).state.mapComplete = true ∧
    (finishTrafficMap c7Pre 7 2 2 true false true).compositeSaved = false := by
  refine ⟨by decide, by decide, by decide, by decide⟩

/-- C7 (amended): a traffic-tile move failure and any weather move or
composite failure are caught — the affected cell, resp. `weatherTime`,
is reset to the empty sentinel 0 and nothing propagates (the weather path
never raises at all) — but a failure in the traffic stitch-and-save block
is NOT caught: it propagates out of the line-processing call, leaving the
cell's stored timestamp in place, `mapComplete` true and no composite
written. -/
theorem c7_amended_move_caught_stitch_not (m : MapData) (wm : List String)
    (ts : Int) (x y : Fin 3) (moveOk stitchOk delOk compOk : Bool)
    (id : String) (isHERE : Bool) (mapDir : String) (files : List WMapFile)
    (now : Int) :
    (m.mapTiles x y ≠ ts →
      (finishTrafficMap m ts x y false stitchOk delOk).state.mapTiles x y = 0) ∧
    ((finishTrafficMap m ts x y moveOk true delOk).raised = false) ∧
    ((finishTrafficMap m ts x y moveOk stitchOk delOk).raised = true →
      stitchOk = false ∧
      (finishTrafficMap m ts x y moveOk stitchOk delOk).state.mapComplete = true ∧
      (finishTrafficMap m ts x y moveOk stitchOk delOk).state.mapTiles x y = ts ∧
      (finishTrafficMap m ts x y moveOk stitchOk delOk).compositeSaved = false) ∧
    ((finishWeatherOverlay m wm ts id isHERE mapDir moveOk compOk delOk files
        now).raised = false) ∧
    (m.weatherTime ≠ ts → (moveOk = false ∨ compOk = false) →
      (finishWeatherOverlay m wm ts id isHERE mapDir moveOk compOk delOk files
        now).state.weatherTime = 0) := by
  refine ⟨?_, ?_, ?_, ?_, ?_⟩
  · intro h
    rw [finishTrafficMap_state_of_ne m ts x y false stitchOk delOk h]
    simpa using tilesAfter_same m ts x y false
  · by_cases h : m.mapTiles x y = ts
    · simp [finishTrafficMap, h]
    · rw [(finishTrafficMap_flags_of_ne m ts x y moveOk true delOk h).1]
      simp
  · intro hr
    by_cases h : m.mapTiles x y = ts
    · simp [finishTrafficMap, h] at hr
    · rw [(finishTrafficMap_flags_of_ne m ts x y moveOk stitchOk delOk h).1]
        at hr
      simp only [Bool.and_eq_true, Bool.not_eq_true'] at hr
      obtain ⟨hchk, hst⟩ := hr
      refine ⟨hst, ?_, ?_, ?_⟩
      · rw [finishTrafficMap_state_of_ne m ts x y moveOk stitchOk delOk h]
        exact hchk
      · rw [finishTrafficMap_state_of_ne m ts x y moveOk stitchOk delOk h]
        exact (checkTiles_eq_true_iff _ ts).mp hchk x y
      · rw [(finishTrafficMap_flags_of_ne m ts x y moveOk stitchOk delOk h).2.1,
          hst]
        simp
  · by_cases h : m.weatherTime = ts
    · simp [finishWeatherOverlay, h]
    · simp only [finishWeatherOverlay, if_neg h]
      split_ifs <;> rfl
  · intro h hf
    simp only [finishWeatherOverlay, if_neg h]
    rcases hf with hf | hf <;> subst hf
    · split_ifs <;> simp_all
    · simp

/-- C7 amended witness: the theorem evaluated at a failed move on the
fresh grid, at the raising stitch-failure input of the counterexample,
and at a failed weather move. -/
theorem c7_amended_move_caught_stitch_not_witness :
    (finishTrafficMap initMapData 5 0 0 false true true).state.mapTiles 0 0 = 0 ∧
    (finishTrafficMap initMapData 5 0 0 true true true).raised = false ∧
    ((finishTrafficMap c7Pre 7 2 2 true false true).raised = true →
      (finishTrafficMap c7Pre 7 2 2 true false true).state.mapTiles 2 2 = 7) ∧
    (finishWeatherOverlay initMapData [] 5 "ABC" false "map" true true true
      [] 0).raised = false ∧
    (finishWeatherOverlay initMapData [] 5 "ABC" false "map" false true true
      [] 0).state.weatherTime = 0 := by
  refine ⟨?_, ?_, ?_, ?_, ?_⟩
  · exact (c7_amended_move_caught_stitch_not initMapData [] 5 0 0 false true
      true true "ABC" false "map" [] 0).1 (by decide)
  · exact (c7_amended_move_caught_stitch_not initMapData [] 5 0 0 true true
      true true "ABC" false "map" [] 0).2.1
  · intro hr
    exact ((c7_amended_move_caught_stitch_not c7Pre [] 7 2 2 true false true
      true "ABC" false "map" [] 0).2.2.1 hr).2.2.1
  · exact (c7_amended_move_caught_stitch_not initMapData [] 5 0 0 true true
      true true "ABC" false "map" [] 0).2.2.2.1
  · exact (c7_amended_move_caught_stitch_not initMapData [] 5 0 0 false true
      true true "ABC" false "map" [] 0).2.2.2.2 (by decide) (Or.inl rfl)

/-- C4 counterexample: the rejection test is a plain id inequality, so
(i) while no weatherID is established (empty string) an overlay whose
embedded id group is also empty — e.g. group 1 of the filename
`1_DWRO___20200101_1900_ab.png` — is NOT rejected: it is processed and
`weatherTime` changes and a composite is produced; and (ii) an overlay
that IS rejected (id "Z" against the empty stored id) is only logged:
its raw file is not deleted. -/
theorem c4_counterexample :
    initMapData.weatherID = "" ∧
    (processWeatherOverlay initMapData [] "" 100 "map" true true true []
      0).rejected = false ∧
    (processWeatherOverlay initMapData [] "" 100 "map" true true true []
      0).state.weatherTime = 100 ∧
    (processWeatherOverlay initMapData [] "" 100 "map" true true true []
      0).compositeSaved = true ∧
    (processWeatherOverlay initMapData [] "Z" 100 "map" true true true []
      0).rejected = true ∧
    (processWeatherOverlay initMapData [] "Z" 100 "map" true true true []
      0).rawDeleteTried = false := by
  refine ⟨rfl, by decide, by decide, by decide, by decide, by decide⟩

/-- C4 (amended): an overlay is rejected iff its embedded id group
differs from the stored weatherID — in particular, while no weatherID is
established every overlay with a non-empty embedded id is rejected, but
one whose embedded id is also empty is processed.  Rejection only logs:
the raw file is not deleted, no composite is produced, and no state
changes.  When the ids agree the overlay is handed to
`finishWeatherOverlay` and is never marked rejected. -/
theorem c4_amended_reject_iff_id_differs (m : MapData) (wm : List String)
    (g1 : String) (ts : Int) (mapDir : String) (moveOk compOk delOk : Bool)
    (files : List WMapFile) (now : Int) :
    (g1 ≠ m.weatherID →
      processWeatherOverlay m wm g1 ts mapDir moveOk compOk delOk files now =
        { state := m, weatherMaps := wm, deletedMaps := [],
          rawDeleteTried := false, compositeSaved := false, raised := false,
          rejected := true }) ∧
    (g1 = m.weatherID →
      processWeatherOverlay m wm g1 ts mapDir moveOk compOk delOk files now =
        finishWeatherOverlay m wm ts m.weatherID false mapDir moveOk compOk
          delOk files now ∧
      (processWeatherOverlay m wm g1 ts mapDir moveOk compOk delOk files
        now).rejected = false) := by
  constructor
  · intro h
    simp [processWeatherOverlay, h]
  · intro h
    have heq : processWeatherOverlay m wm g1 ts mapDir moveOk compOk delOk
        files now =
        finishWeatherOverlay m wm ts m.weatherID false mapDir moveOk compOk
          delOk files now := by
      simp [processWeatherOverlay, h]
    refine ⟨heq, ?_⟩
    rw [heq]
    show (finishWeatherOverlay m wm ts m.weatherID false mapDir moveOk compOk
      delOk files now).rejected = false
    by_cases hd : m.weatherTime = ts
    · simp [finishWeatherOverlay, hd]
    · simp only [finishWeatherOverlay, if_neg hd]
      split_ifs <;> rfl

/-- C4 amended witness: the theorem applied to a mismatching overlay
(id "Z" against the fresh, empty stored id) and to a matching one. -/
theorem c4_amended_reject_iff_id_differs_witness :
    processWeatherOverlay initMapData [] "Z" 100 "map" true true true [] 0 =
      { state := initMapData, weatherMaps := [], deletedMaps := [],
        rawDeleteTried := false, compositeSaved := false, raised := false,
        rejected := true } ∧
    (processWeatherOverlay initMapData [] "" 100 "map" true true true []
      0).rejected = false := by
  refine ⟨?_, ?_⟩
  · exact (c4_amended_reject_iff_id_differs initMapData [] "Z" 100 "map" true
      true true [] 0).1 (by decide)
  · exact ((c4_amended_reject_iff_id_differs initMapData [] "" 100 "map" true
      true true [] 0).2 rfl).2

/-- C9 counterexample: metadata for the already-known id "A" with a NEW
bounding box arrives while `BaseMap_A.png` and the reference map both
exist; the stored values are replaced and the list is rescanned, but
`makeBaseMap` keeps the existing file: no base-map regeneration is
forced. -/
theorem c9_counterexample :
    (proccessWeatherInfo c9Pre [] (some "A") (some [1, 2, 3, 9]) true true
      "map" [] 0).updated = true ∧
    (proccessWeatherInfo c9Pre [] (some "A") (some [1, 2, 3, 9]) true true
      "map" [] 0).state.weatherPos = [1, 2, 3, 9] ∧
    (proccessWeatherInfo c9Pre [] (some "A") (some [1, 2, 3, 9]) true true
      "map" [] 0).baseWrite = some BaseMapWrite.kept := by
  refine ⟨by decide, by decide, by decide⟩

/-- C9 (amended): when both fields are extracted and either differs, both
stored values are replaced, the recent-maps list is cleared and rescanned,
and `makeBaseMap` is invoked — but it only ensures a base map exists: it
writes one iff the base-map file is absent or the reference map is
missing (in which case a blank is written), and keeps an existing file
otherwise.  A malformed file (either field missing) or unchanged values
leave everything untouched. -/
theorem c9_amended_metadata_update (m : MapData) (wm : List String)
    (wid : String) (wpos : List Rat) (wid? : Option String)
    (wpos? : Option (List Rat)) (fe be : Bool) (mapDir : String)
    (files : List WMapFile) (now : Int) :
    ((m.weatherID ≠ wid ∨ m.weatherPos ≠ wpos) →
      (proccessWeatherInfo m wm (some wid) (some wpos) fe be mapDir files
          now).state.weatherID = wid ∧
      (proccessWeatherInfo m wm (some wid) (some wpos) fe be mapDir files
          now).state.weatherPos = wpos ∧
      (proccessWeatherInfo m wm (some wid) (some wpos) fe be mapDir files
          now).updated = true ∧
      (proccessWeatherInfo m wm (some wid) (some wpos) fe be mapDir files
          now).baseWrite = some (makeBaseMap wid wpos fe be) ∧
      (makeBaseMap wid wpos fe be = BaseMapWrite.kept ↔ (fe = true ∧ be = true)) ∧
      (proccessWeatherInfo m wm (some wid) (some wpos) fe be mapDir files
          now).weatherMaps = (proccessWeatherMaps wid now mapDir files []).1 ∧
      (proccessWeatherInfo m wm (some wid) (some wpos) fe be mapDir files
          now).deletedMaps = (proccessWeatherMaps wid now mapDir files []).2) ∧
    ((wid? = none ∨ wpos? = none) →
      proccessWeatherInfo m wm wid? wpos? fe be mapDir files now =
        { state := m, weatherMaps := wm, deletedMaps := [], baseWrite := none,
          updated := false }) ∧
    ((m.weatherID = wid ∧ m.weatherPos = wpos) →
      proccessWeatherInfo m wm (some wid) (some wpos) fe be mapDir files now =
        { state := m, weatherMaps := wm, deletedMaps := [], baseWrite := none,
          updated := false }) := by
  refine ⟨?_, ?_, ?_⟩
  · intro h
    simp only [proccessWeatherInfo]
    rw [if_pos h]
    exact ⟨rfl, rfl, rfl, rfl, makeBaseMap_kept_iff wid wpos fe be, rfl, rfl⟩
  · intro h
    rcases h with h | h
    · subst h; rfl
    · subst h; cases wid? <;> rfl
  · rintro ⟨h1, h2⟩
    have hneg : ¬(m.weatherID ≠ wid ∨ m.weatherPos ≠ wpos) := by
      push_neg
      exact ⟨h1, h2⟩
    simp only [proccessWeatherInfo]
    rw [if_neg hneg]

/-- C9 amended witness: the theorem applied to the counterexample state
(changed bounding box, base map present), to a missing-field metadata
file, and to unchanged metadata. -/
theorem c9_amended_metadata_update_witness :
    (proccessWeatherInfo c9Pre [] (some "A") (some [1, 2, 3, 9]) true true
      "map" [] 0).state.weatherID = "A" ∧
    (proccessWeatherInfo c9Pre [] (some "A") (some [1, 2, 3, 9]) true true
      "map" [] 0).updated = true ∧
    proccessWeatherInfo c9Pre ["x"] none (some [1, 2, 3, 9]) true true "map"
      [] 0 =
      { state := c9Pre, weatherMaps := ["x"], deletedMaps := [],
        baseWrite := none, updated := false } ∧
    proccessWeatherInfo c9Pre ["x"] (some "A") (some [1, 2, 3, 4]) true true
      "map" [] 0 =
      { state := c9Pre, weatherMaps := ["x"], deletedMaps := [],
        baseWrite := none, updated := false } := by
  refine ⟨?_, ?_, ?_, ?_⟩
  · exact ((c9_amended_metadata_update c9Pre [] "A" [1, 2, 3, 9] none none
      true true "map" [] 0).1 (by decide)).1
  · exact ((c9_amended_metadata_update c9Pre [] "A" [1, 2, 3, 9] none none
      true true "map" [] 0).1 (by decide)).2.2.1
  · exact (c9_amended_metadata_update c9Pre ["x"] "A" [1, 2, 3, 9] none
      (some [1, 2, 3, 9]) true true "map" [] 0).2.1 (Or.inl rfl)
  · exact (c9_amended_metadata_update c9Pre ["x"] "A" [1, 2, 3, 4] none none
      true true "map" [] 0).2.2 (by decide)

/-- C5 counterexample: a refresh pass appends newly discovered files
after the pre-existing entries, so the list does not end up sorted by
timestamp.  After a first pass that listed only the timestamp-2000 map, a
pass that also finds the timestamp-1000 map (both in-window, id "X")
yields the list [map_2000, map_1000] — not timestamp-ordered. -/
theorem c5_counterexample :
    (proccessWeatherMaps "X" 2500 "map" [{ id := "X", ts := 2000 }] []).1 =
      [wmapPath "map" { id := "X", ts := 2000 }] ∧
    (proccessWeatherMaps "X" 2500 "map" c5CexFiles
        [wmapPath "map" { id := "X", ts := 2000 }]).1 =
      [wmapPath "map" { id := "X", ts := 2000 },
       wmapPath "map" { id := "X", ts := 1000 }] ∧
    ¬ wmTsOrdered "map" c5CexFiles
        (proccessWeatherMaps "X" 2500 "map" c5CexFiles
          [wmapPath "map" { id := "X", ts := 2000 }]).1 := by
  refine ⟨by decide, by decide, ?_⟩
  intro hord
  unfold wmTsOrdered at hord
  rw [show (proccessWeatherMaps "X" 2500 "map" c5CexFiles
      [wmapPath "map" { id := "X", ts := 2000 }]).1 =
      [wmapPath "map" { id := "X", ts := 2000 },
       wmapPath "map" { id := "X", ts := 1000 }] from by decide] at hord
  have h12 := (List.pairwise_cons.mp hord).1 _ (List.mem_singleton_self _)
  have hle := h12 { id := "X", ts := 2000 } (by decide)
    { id := "X", ts := 1000 } (by decide) rfl rfl
  exact absurd hle (by decide)

/-- C5 (amended): on a refresh pass over the (filename-sorted) directory
listing — repetition-free, as directory listings are — every parsed file
older than 12 hours is deleted from disk and is absent from the resulting
in-memory list, regardless of id; every in-window file with the current
id ends up in the list and is not deleted; an in-window file with a
foreign id is not deleted and is in the resulting list exactly when it
already was before the pass.  The list retains pre-existing entries in
their old order and appends newly discovered matching files in scan
order, so it need not end sorted by timestamp; when the pass starts from
an empty list it is exactly the matching in-window files in scan order,
and is timestamp-sorted whenever the scan order is. -/
theorem c5_amended_refresh (weatherID : String) (now : Int) (mapDir : String)
    (files : List WMapFile) (wm : List String)
    (hnd : (files.map (wmapPath mapDir)).Nodup) (hwm : wm.Nodup) :
    ((proccessWeatherMaps weatherID now mapDir files wm).2 =
      (files.filter (wmapStale now)).map (wmapPath mapDir)) ∧
    (∀ f ∈ files, wmapStale now f = true →
      wmapPath mapDir f ∉
        (proccessWeatherMaps weatherID now mapDir files wm).1) ∧
    (∀ f ∈ files, wmapStale now f = false → f.id = weatherID →
      wmapPath mapDir f ∈
        (proccessWeatherMaps weatherID now mapDir files wm).1 ∧
      wmapPath mapDir f ∉
        (proccessWeatherMaps weatherID now mapDir files wm).2) ∧
    (∀ f ∈ files, wmapStale now f = false → f.id ≠ weatherID →
      (wmapPath mapDir f ∈
          (proccessWeatherMaps weatherID now mapDir files wm).1 ↔
        wmapPath mapDir f ∈ wm) ∧
      wmapPath mapDir f ∉
        (proccessWeatherMaps weatherID now mapDir files wm).2) ∧
    (wm = [] →
      (proccessWeatherMaps weatherID now mapDir files wm).1 =
        (files.filter (fun f => !wmapStale now f && f.id == weatherID)).map
          (wmapPath mapDir)) ∧
    (wm = [] → files.Pairwise (fun a b => a.ts ≤ b.ts) →
      ∃ kept : List WMapFile, kept.Pairwise (fun a b => a.ts ≤ b.ts) ∧
        (proccessWeatherMaps weatherID now mapDir files wm).1 =
          kept.map (wmapPath mapDir)) := by
  unfold proccessWeatherMaps
  have hsnd := weatherMaps_foldl_snd weatherID now mapDir files (wm, [])
  have hnotdel : ∀ f ∈ files, wmapStale now f = false →
      wmapPath mapDir f ∉
        (files.foldl (weatherMapsStep weatherID now mapDir) (wm, [])).2 := by
    intro f hf hs hmem
    rw [hsnd] at hmem
    simp only [List.nil_append] at hmem
    rcases List.mem_map.mp hmem with ⟨g, hgmem, hgeq⟩
    have hgf : g ∈ files := List.mem_of_mem_filter hgmem
    have hgs : wmapStale now g = true := List.of_mem_filter hgmem
    have hge : g = f := List.inj_on_of_nodup_map hnd hgf hf hgeq
    rw [hge, hs] at hgs
    cases hgs
  refine ⟨by simpa using hsnd, ?_, ?_, ?_, ?_, ?_⟩
  · intro f hf hs
    exact weatherMaps_foldl_stale_not_mem weatherID now mapDir files (wm, [])
      f hf hs hnd hwm
  · intro f hf hs hid
    exact ⟨weatherMaps_foldl_keep_mem weatherID now mapDir files (wm, [])
      f hf hs hid hnd, hnotdel f hf hs⟩
  · intro f hf hs hid
    exact ⟨weatherMaps_foldl_other_mem weatherID now mapDir files (wm, [])
      f hf hs hid hnd, hnotdel f hf hs⟩
  · intro hwm0
    subst hwm0
    simpa using weatherMaps_foldl_fst_char weatherID now mapDir files ([], [])
      hnd (by simp)
  · intro hwm0 hsort
    subst hwm0
    refine ⟨files.filter (fun f => !wmapStale now f && f.id == weatherID),
      hsort.filter _, ?_⟩
    simpa using weatherMaps_foldl_fst_char weatherID now mapDir files ([], [])
      hnd (by simp)

/-- C5 amended witness: the theorem applied to a concrete pass (current
id "X", now 50000) over one stale file, one in-window matching file and
one in-window foreign file, starting from the empty list. -/
theorem c5_amended_refresh_witness :
    ((c5WitFiles.map (wmapPath "map")).Nodup) ∧
    (proccessWeatherMaps "X" 50000 "map" c5WitFiles []).2 =
      (c5WitFiles.filter (wmapStale 50000)).map (wmapPath "map") ∧
    wmapPath "map" { id := "X", ts := 1000 } ∉
      (proccessWeatherMaps "X" 50000 "map" c5WitFiles []).1 ∧
    wmapPath "map" { id := "X", ts := 40000 } ∈
      (proccessWeatherMaps "X" 50000 "map" c5WitFiles []).1 ∧
    (wmapPath "map" { id := "Y", ts := 40000 } ∈
        (proccessWeatherMaps "X" 50000 "map" c5WitFiles []).1 ↔
      wmapPath "map" { id := "Y", ts := 40000 } ∈ ([] : List String)) := by
  refine ⟨by decide, ?_, ?_, ?_, ?_⟩
  · exact (c5_amended_refresh "X" 50000 "map" c5WitFiles [] (by decide)
      (by decide)).1
  · exact (c5_amended_refresh "X" 50000 "map" c5WitFiles [] (by decide)
      (by decide)).2.1 _ (by decide) (by decide)
  · exact ((c5_amended_refresh "X" 50000 "map" c5WitFiles [] (by decide)
      (by decide)).2.2.1 _ (by decide) (by decide) (by decide)).1
  · exact ((c5_amended_refresh "X" 50000 "map" c5WitFiles [] (by decide)
      (by decide)).2.2.2.1 _ (by decide) (by decide) (by decide)).1

end Nrsc5Dui
